import Mathlib

/-!
Verification development for the `nodes.py` module of
ComfyUI-GPU-Preprocessor-Wrapper.

The module provides a wrapper class `MultiGPUPreprocessorWrapper` that
temporarily overrides the process-global device-selection hook
`model_management.get_torch_device` while a wrapped preprocessor runs, a
recursive helper `_ensure_tensors_on_device` that relocates every tensor in a
nested structure to a target device, and a module-load registration step that
looks up five external preprocessor classes in a host registry and registers a
wrapper for each one found.

The embedding below models Python values handled by the helper as a mutual
inductive type, the global state touched by `execute` (the device hook, the
instance-id supply and the cache-clear counter) as an explicit state record
threaded through the call, and the module-load registration as a pure function
of the host registry.
-/

namespace GPUWrapper

/-- A compute-device handle, identified by its string form such as "cuda:0". -/
abbrev Device := String

/-- Models the `torch.device(s)` constructor applied to a device string. -/
def torch_device (s : String) : Device := s

/-- Minimal model of a torch tensor: the device it resides on together with an
abstract payload standing for its shape and contents. -/
structure Tensor where
  device : Device
  data : Nat
deriving DecidableEq, Repr

/-- Models `t.to(device)`: the same payload, relocated to device `d`. -/
def Tensor.toDevice (t : Tensor) (d : Device) : Tensor := { t with device := d }

mutual
/-- A Python value as traversed by `_ensure_tensors_on_device`: a tensor, a
string leaf, some other non-tensor leaf, a dict, a list, or a tuple. -/
inductive PyObj : Type where
  | tensor : Tensor → PyObj
  | str : String → PyObj
  | other : Nat → PyObj
  | dict : Entries → PyObj
  | list : Objs → PyObj
  | tuple : Objs → PyObj
deriving DecidableEq, Repr

/-- Ordered key/value entries of a Python dict (insertion order). -/
inductive Entries : Type where
  | nil : Entries
  | cons : String → PyObj → Entries → Entries
deriving DecidableEq, Repr

/-- Ordered elements of a Python list or tuple. -/
inductive Objs : Type where
  | nil : Objs
  | cons : PyObj → Objs → Objs
deriving DecidableEq, Repr
end

mutual
/-- Models `MultiGPUPreprocessorWrapper._ensure_tensors_on_device(obj, device)`
from src/nodes.py lines 40-51: tensors are moved with `.to(device)`, dicts are
rebuilt entrywise, lists and tuples elementwise keeping their kind, and any
other value is returned unchanged. -/
def ensure_tensors_on_device : PyObj → Device → PyObj
  | .tensor t, d => .tensor (t.toDevice d)
  | .str s, _ => .str s
  | .other v, _ => .other v
  | .dict kvs, d => .dict (ensureEntries kvs d)
  | .list xs, d => .list (ensureObjs xs d)
  | .tuple xs, d => .tuple (ensureObjs xs d)

/-- Entrywise action of `_ensure_tensors_on_device` on dict entries, keeping
every key and the entry order (the dict comprehension on line 47). -/
def ensureEntries : Entries → Device → Entries
  | .nil, _ => .nil
  | .cons k v rest, d => .cons k (ensure_tensors_on_device v d) (ensureEntries rest d)

/-- Elementwise action of `_ensure_tensors_on_device` on list/tuple elements,
keeping the element order (the generator expression on line 49). -/
def ensureObjs : Objs → Device → Objs
  | .nil, _ => .nil
  | .cons x rest, d => .cons (ensure_tensors_on_device x d) (ensureObjs rest d)
end

mutual
/-- The device-erased skeleton of a Python value: container kinds, key and
element order, non-tensor leaves, and tensor payloads, with tensor devices
forgotten.  Two values with equal skeletons are structurally identical up to
where their tensors live. -/
inductive Skel : Type where
  | tensorData : Nat → Skel
  | str : String → Skel
  | other : Nat → Skel
  | dict : SkelEntries → Skel
  | list : SkelObjs → Skel
  | tuple : SkelObjs → Skel
deriving DecidableEq, Repr

/-- Skeletons of dict entries. -/
inductive SkelEntries : Type where
  | nil : SkelEntries
  | cons : String → Skel → SkelEntries → SkelEntries
deriving DecidableEq, Repr

/-- Skeletons of list/tuple elements. -/
inductive SkelObjs : Type where
  | nil : SkelObjs
  | cons : Skel → SkelObjs → SkelObjs
deriving DecidableEq, Repr
end

mutual
/-- Computes the device-erased skeleton of a value. -/
def skeleton : PyObj → Skel
  | .tensor t => .tensorData t.data
  | .str s => .str s
  | .other v => .other v
  | .dict kvs => .dict (skelEntries kvs)
  | .list xs => .list (skelObjs xs)
  | .tuple xs => .tuple (skelObjs xs)

/-- Skeletons of dict entries, in order. -/
def skelEntries : Entries → SkelEntries
  | .nil => .nil
  | .cons k v rest => .cons k (skeleton v) (skelEntries rest)

/-- Skeletons of list/tuple elements, in order. -/
def skelObjs : Objs → SkelObjs
  | .nil => .nil
  | .cons x rest => .cons (skeleton x) (skelObjs rest)
end

mutual
/-- All tensor leaves of a value, in traversal order. -/
def tensorsOf : PyObj → List Tensor
  | .tensor t => [t]
  | .str _ => []
  | .other _ => []
  | .dict kvs => tensorsOfEntries kvs
  | .list xs => tensorsOfObjs xs
  | .tuple xs => tensorsOfObjs xs

/-- All tensor leaves under dict entries, in order. -/
def tensorsOfEntries : Entries → List Tensor
  | .nil => []
  | .cons _ v rest => tensorsOf v ++ tensorsOfEntries rest

/-- All tensor leaves under list/tuple elements, in order. -/
def tensorsOfObjs : Objs → List Tensor
  | .nil => []
  | .cons x rest => tensorsOf x ++ tensorsOfObjs rest
end

/-- A device-selection hook: the behavior of `model_management.get_torch_device`,
possibly dynamic (the MultiGPU patch may answer differently at each call), so a
hook maps a call index to the device it returns. -/
abbrev Hook := Nat → Device

/-- Identifier of a preprocessor instance produced by `preprocessor_class()`. -/
abbrev Instanc := Nat

/-- An exception object raised by the wrapped call, identified abstractly. -/
abbrev Exc := Nat

/-- The process-global state touched by `execute`: the currently installed
device-selection hook, a supply of fresh instance ids standing for
`preprocessor_class()` construction, and a counter of
`model_management.soft_empty_cache()` calls. -/
structure ExecState where
  hook : Hook
  nextInstanceId : Nat
  softEmptyCacheCalls : Nat

/-- The mutable per-wrapper state of a `MultiGPUPreprocessorWrapper` object:
its `target_device` string and its `_preprocessor_instance` cache. -/
structure Wrapper where
  target_device : String
  _preprocessor_instance : Option Instanc

/-- The wrapped preprocessor call (line 81): given the instance it is invoked
on, the keyword arguments, and the global state, it either returns a value or
raises an exception, and may itself read and write the global state. -/
abbrev WrappedFn := Instanc → PyObj → ExecState → (Except Exc PyObj) × ExecState

/-- Models `MultiGPUPreprocessorWrapper.execute(**kwargs)` from src/nodes.py
lines 53-96: save the original hook; call `soft_empty_cache`; clear the
instance cache; install the constant-device override; relocate the inputs;
instantiate the preprocessor (the cache was just cleared, so always freshly);
run the wrapped call; on success relocate the result and return it, on an
exception re-raise it unchanged; in both cases the `finally` block restores the
saved hook.  Returns the result-or-exception, the updated wrapper object and
the final global state. -/
def execute (w : Wrapper) (f : WrappedFn) (kwargs : PyObj) (s : ExecState) :
    (Except Exc PyObj) × Wrapper × ExecState :=
  let original_get_device := s.hook
  let s1 : ExecState := { s with softEmptyCacheCalls := s.softEmptyCacheCalls + 1 }
  let w1 : Wrapper := { w with _preprocessor_instance := none }
  let target_torch_device := torch_device w.target_device
  let s2 : ExecState := { s1 with hook := fun _ => target_torch_device }
  let kwargs1 := ensure_tensors_on_device kwargs target_torch_device
  let step :=
    match w1._preprocessor_instance with
    | none =>
        ({ w1 with _preprocessor_instance := some s2.nextInstanceId },
         { s2 with nextInstanceId := s2.nextInstanceId + 1 },
         s2.nextInstanceId)
    | some inst => (w1, s2, inst)
  let w2 := step.1
  let s3 := step.2.1
  let inst := step.2.2
  match f inst kwargs1 s3 with
  | (Except.ok result, s4) =>
      (Except.ok (ensure_tensors_on_device result target_torch_device),
       w2, { s4 with hook := original_get_device })
  | (Except.error e, s4) =>
      (Except.error e, w2, { s4 with hook := original_get_device })

/-- The global state in effect while the wrapped call runs: the constant
override hook is installed, one fresh instance id has been consumed and
`soft_empty_cache` has run once. -/
def stateDuring (w : Wrapper) (s : ExecState) : ExecState :=
  { hook := fun _ => torch_device w.target_device,
    nextInstanceId := s.nextInstanceId + 1,
    softEmptyCacheCalls := s.softEmptyCacheCalls + 1 }

/-- Identity of an external preprocessor class found in the host registry. -/
abbrev PluginClass := Nat

/-- The host environment observed at module load: whether the
`comfyui_controlnet_aux` import succeeds, and the `NODE_CLASS_MAPPINGS`
registry it exports (a partial map from preprocessor name to class). -/
structure HostRegistry where
  importOk : Bool
  mapping : String → Option PluginClass

/-- Models one `try` block's lookup of a preprocessor class: an `ImportError`
(import failing) or a `KeyError` (name absent from the registry) both yield
`none`, matching the `except (ImportError, KeyError)` handler that sets the
wrapper to `None`; a successful lookup yields the class. -/
def lookupPlugin (reg : HostRegistry) (name : String) : Option PluginClass :=
  if reg.importOk then reg.mapping name else none

/-- A concrete wrapper class as built by the five subclass definitions: it
fixes the wrapped preprocessor class and the target device "cuda:0". -/
structure WrapperClass where
  preprocessor_class : PluginClass
  target_device : String
deriving DecidableEq, Repr

/-- Builds the wrapper subclass for a looked-up preprocessor class with target
device "cuda:0", as each `super().__init__(..., 'cuda:0')` does. -/
def mkWrapper (p : PluginClass) : WrapperClass :=
  { preprocessor_class := p, target_device := "cuda:0" }

/-- Models the `DepthAnythingV2Wrapper` binding after its try/except block:
the wrapper class on success, `None` on lookup failure (lines 102-121). -/
def DepthAnythingV2Wrapper (reg : HostRegistry) : Option WrapperClass :=
  (lookupPlugin reg "DepthAnythingV2Preprocessor").map mkWrapper

/-- Models the `DWPreprocessorWrapper` binding (lines 124-145). -/
def DWPreprocessorWrapper (reg : HostRegistry) : Option WrapperClass :=
  (lookupPlugin reg "DWPreprocessor").map mkWrapper

/-- Models the `CannyEdgePreprocessorWrapper` binding (lines 148-169). -/
def CannyEdgePreprocessorWrapper (reg : HostRegistry) : Option WrapperClass :=
  (lookupPlugin reg "CannyEdgePreprocessor").map mkWrapper

/-- Models the `OpenposePreprocessorWrapper` binding (lines 172-193). -/
def OpenposePreprocessorWrapper (reg : HostRegistry) : Option WrapperClass :=
  (lookupPlugin reg "OpenposePreprocessor").map mkWrapper

/-- Models the `MidasDepthMapWrapper` binding (lines 196-217). -/
def MidasDepthMapWrapper (reg : HostRegistry) : Option WrapperClass :=
  (lookupPlugin reg "MiDaS-DepthMapPreprocessor").map mkWrapper

/-- Models the `NODE_CLASS_MAPPINGS` dict after the five `if` blocks of lines
221-243: starting empty, each available wrapper (a class is truthy, `None` is
falsy) is inserted under its wrapper key, in source order. -/
def NODE_CLASS_MAPPINGS (reg : HostRegistry) : List (String × WrapperClass) :=
  (match DepthAnythingV2Wrapper reg with
   | some w => [("DepthAnythingV2Wrapper", w)]
   | none => []) ++
  (match DWPreprocessorWrapper reg with
   | some w => [("DWPreprocessorWrapper", w)]
   | none => []) ++
  (match CannyEdgePreprocessorWrapper reg with
   | some w => [("CannyEdgePreprocessorWrapper", w)]
   | none => []) ++
  (match OpenposePreprocessorWrapper reg with
   | some w => [("OpenposePreprocessorWrapper", w)]
   | none => []) ++
  (match MidasDepthMapWrapper reg with
   | some w => [("MidasDepthMapWrapper", w)]
   | none => [])

/-- Models the `NODE_DISPLAY_NAME_MAPPINGS` dict after the same five `if`
blocks: each available wrapper's key mapped to its display string. -/
def NODE_DISPLAY_NAME_MAPPINGS (reg : HostRegistry) : List (String × String) :=
  (match DepthAnythingV2Wrapper reg with
   | some _ => [("DepthAnythingV2Wrapper", "DepthAnything V2 (GPU Wrapper)")]
   | none => []) ++
  (match DWPreprocessorWrapper reg with
   | some _ => [("DWPreprocessorWrapper", "DWPose (GPU Wrapper)")]
   | none => []) ++
  (match CannyEdgePreprocessorWrapper reg with
   | some _ => [("CannyEdgePreprocessorWrapper", "Canny Edge (GPU Wrapper)")]
   | none => []) ++
  (match OpenposePreprocessorWrapper reg with
   | some _ => [("OpenposePreprocessorWrapper", "OpenPose (GPU Wrapper)")]
   | none => []) ++
  (match MidasDepthMapWrapper reg with
   | some _ => [("MidasDepthMapWrapper", "Midas Depth (GPU Wrapper)")]
   | none => [])

/-- The five wrapper keys paired with the registry name each block looks up. -/
def pluginTable : List (String × String) :=
  [("DepthAnythingV2Wrapper", "DepthAnythingV2Preprocessor"),
   ("DWPreprocessorWrapper", "DWPreprocessor"),
   ("CannyEdgePreprocessorWrapper", "CannyEdgePreprocessor"),
   ("OpenposePreprocessorWrapper", "OpenposePreprocessor"),
   ("MidasDepthMapWrapper", "MiDaS-DepthMapPreprocessor")]

/-- How many of the five lookups succeed against a given host registry. -/
def availableCount (reg : HostRegistry) : Nat :=
  (pluginTable.filter (fun e => (lookupPlugin reg e.2).isSome)).length

/-- A list of `k` copies of the string leaf `s`, used to record repeated
hook answers. -/
def constStrObjs (s : String) : Nat → Objs
  | 0 => .nil
  | n + 1 => .cons (.str s) (constStrObjs s n)

/-- The devices answered by hook `h` at call indices `k-1, ..., 0`, as string
leaves. -/
def devicesList (h : Hook) : Nat → Objs
  | 0 => .nil
  | n + 1 => .cons (.str (h n)) (devicesList h n)

/-- A probe wrapped call that performs `k` calls to the installed
`get_torch_device` hook and returns the list of devices it was given. -/
def hookProbe (k : Nat) : WrappedFn :=
  fun _ _ st => (Except.ok (.list (devicesList st.hook k)), st)

/-- A probe wrapped call that reports which preprocessor instance it was
invoked on. -/
def instProbe : WrappedFn :=
  fun inst _ st => (Except.ok (.other inst), st)

/-- A wrapped call that always raises the exception `7`. -/
def raiseSeven : WrappedFn :=
  fun _ _ st => (Except.error 7, st)

/-- A wrapped call that returns a tensor resident on the cpu device. -/
def returnCpuTensor : WrappedFn :=
  fun _ _ st => (Except.ok (.tensor ⟨"cpu", 5⟩), st)

/-- A concrete wrapper object targeting "cuda:0" with an empty instance
cache. -/
def wCuda : Wrapper :=
  { target_device := "cuda:0", _preprocessor_instance := none }

/-- A concrete initial global state whose hook always answers "cpu". -/
def sInit : ExecState :=
  { hook := fun _ => "cpu", nextInstanceId := 0, softEmptyCacheCalls := 0 }

/-- A concrete host registry in which only the `DWPreprocessor` lookup
succeeds. -/
def regOne : HostRegistry :=
  { importOk := true,
    mapping := fun n => if n = "DWPreprocessor" then some 1 else none }

/-- A concrete host registry in which exactly the `DWPreprocessor` and
`CannyEdgePreprocessor` lookups succeed. -/
def regTwo : HostRegistry :=
  { importOk := true,
    mapping := fun n =>
      if n = "DWPreprocessor" ∨ n = "CannyEdgePreprocessor" then some 1 else none }

/-- Unfolding of `execute`: the wrapped call is invoked exactly once, on the
fresh instance, the relocated inputs and the overridden state; afterwards the
`finally` block reinstates the saved hook on both branches. -/
theorem execute_eq (w : Wrapper) (f : WrappedFn) (kwargs : PyObj) (s : ExecState) :
    execute w f kwargs s =
      match f s.nextInstanceId
          (ensure_tensors_on_device kwargs (torch_device w.target_device))
          (stateDuring w s) with
      | (Except.ok result, s4) =>
          (Except.ok (ensure_tensors_on_device result (torch_device w.target_device)),
           { w with _preprocessor_instance := some s.nextInstanceId },
           { s4 with hook := s.hook })
      | (Except.error e, s4) =>
          (Except.error e,
           { w with _preprocessor_instance := some s.nextInstanceId },
           { s4 with hook := s.hook }) := rfl


mutual
/-- Relocation leaves the device-erased skeleton unchanged. -/
theorem skeleton_ensure : (o : PyObj) → (d : Device) →
    skeleton (ensure_tensors_on_device o d) = skeleton o
  | .tensor _, _ => rfl
  | .str _, _ => rfl
  | .other _, _ => rfl
  | .dict kvs, d => congrArg Skel.dict (skelEntries_ensure kvs d)
  | .list xs, d => congrArg Skel.list (skelObjs_ensure xs d)
  | .tuple xs, d => congrArg Skel.tuple (skelObjs_ensure xs d)

/-- Entrywise version of `skeleton_ensure`. -/
theorem skelEntries_ensure : (kvs : Entries) → (d : Device) →
    skelEntries (ensureEntries kvs d) = skelEntries kvs
  | .nil, _ => rfl
  | .cons k v rest, d => by
      simp only [ensureEntries, skelEntries, skeleton_ensure v d,
        skelEntries_ensure rest d]

/-- Elementwise version of `skeleton_ensure`. -/
theorem skelObjs_ensure : (xs : Objs) → (d : Device) →
    skelObjs (ensureObjs xs d) = skelObjs xs
  | .nil, _ => rfl
  | .cons x rest, d => by
      simp only [ensureObjs, skelObjs, skeleton_ensure x d, skelObjs_ensure rest d]
end

mutual
/-- Relocation sends each tensor leaf, in order, to its `.to(d)` image. -/
theorem tensorsOf_ensure : (o : PyObj) → (d : Device) →
    tensorsOf (ensure_tensors_on_device o d) = (tensorsOf o).map (fun t => t.toDevice d)
  | .tensor _, _ => rfl
  | .str _, _ => rfl
  | .other _, _ => rfl
  | .dict kvs, d => tensorsOfEntries_ensure kvs d
  | .list xs, d => tensorsOfObjs_ensure xs d
  | .tuple xs, d => tensorsOfObjs_ensure xs d

/-- Entrywise version of `tensorsOf_ensure`. -/
theorem tensorsOfEntries_ensure : (kvs : Entries) → (d : Device) →
    tensorsOfEntries (ensureEntries kvs d) =
      (tensorsOfEntries kvs).map (fun t => t.toDevice d)
  | .nil, _ => rfl
  | .cons k v rest, d => by
      simp only [ensureEntries, tensorsOfEntries, tensorsOf_ensure v d,
        tensorsOfEntries_ensure rest d, List.map_append]

/-- Elementwise version of `tensorsOf_ensure`. -/
theorem tensorsOfObjs_ensure : (xs : Objs) → (d : Device) →
    tensorsOfObjs (ensureObjs xs d) = (tensorsOfObjs xs).map (fun t => t.toDevice d)
  | .nil, _ => rfl
  | .cons x rest, d => by
      simp only [ensureObjs, tensorsOfObjs, tensorsOf_ensure x d,
        tensorsOfObjs_ensure rest d, List.map_append]
end

mutual
/-- Relocating a value whose tensors already live on `d` returns it unchanged. -/
theorem ensure_eq_self_of_on_device : (o : PyObj) → (d : Device) →
    (∀ t ∈ tensorsOf o, t.device = d) → ensure_tensors_on_device o d = o
  | .tensor t, d, h => by
      have ht : t.device = d := h t (by simp [tensorsOf])
      simp [ensure_tensors_on_device, Tensor.toDevice, ← ht]
  | .str _, _, _ => rfl
  | .other _, _, _ => rfl
  | .dict kvs, d, h =>
      congrArg PyObj.dict (ensureEntries_eq_self_of_on_device kvs d h)
  | .list xs, d, h =>
      congrArg PyObj.list (ensureObjs_eq_self_of_on_device xs d h)
  | .tuple xs, d, h =>
      congrArg PyObj.tuple (ensureObjs_eq_self_of_on_device xs d h)

/-- Entrywise version of `ensure_eq_self_of_on_device`. -/
theorem ensureEntries_eq_self_of_on_device : (kvs : Entries) → (d : Device) →
    (∀ t ∈ tensorsOfEntries kvs, t.device = d) → ensureEntries kvs d = kvs
  | .nil, _, _ => rfl
  | .cons k v rest, d, h => by
      have hv : ensure_tensors_on_device v d = v :=
        ensure_eq_self_of_on_device v d fun t ht =>
          h t (by simp [tensorsOfEntries, ht])
      have hr : ensureEntries rest d = rest :=
        ensureEntries_eq_self_of_on_device rest d fun t ht =>
          h t (by simp [tensorsOfEntries, ht])
      simp [ensureEntries, hv, hr]

/-- Elementwise version of `ensure_eq_self_of_on_device`. -/
theorem ensureObjs_eq_self_of_on_device : (xs : Objs) → (d : Device) →
    (∀ t ∈ tensorsOfObjs xs, t.device = d) → ensureObjs xs d = xs
  | .nil, _, _ => rfl
  | .cons x rest, d, h => by
      have hx : ensure_tensors_on_device x d = x :=
        ensure_eq_self_of_on_device x d fun t ht =>
          h t (by simp [tensorsOfObjs, ht])
      have hr : ensureObjs rest d = rest :=
        ensureObjs_eq_self_of_on_device rest d fun t ht =>
          h t (by simp [tensorsOfObjs, ht])
      simp [ensureObjs, hx, hr]
end

/-- Every tensor of a relocated value lives on the target device. -/
theorem tensorsOf_ensure_on_device (o : PyObj) (d : Device) :
    ∀ t ∈ tensorsOf (ensure_tensors_on_device o d), t.device = d := by
  intro t ht
  rw [tensorsOf_ensure] at ht
  rcases List.mem_map.mp ht with ⟨u, _, rfl⟩
  rfl

/-- Relocation is idempotent: a second pass with the same device is a no-op. -/
theorem ensure_idem (o : PyObj) (d : Device) :
    ensure_tensors_on_device (ensure_tensors_on_device o d) d =
      ensure_tensors_on_device o d :=
  ensure_eq_self_of_on_device _ d (tensorsOf_ensure_on_device o d)

/-- Reading a constant hook `k` times records `k` copies of its answer. -/
theorem devicesList_const (dv : Device) (k : Nat) :
    devicesList (fun _ => dv) k = constStrObjs dv k := by
  induction k with
  | zero => rfl
  | succ n ih => simp [devicesList, constStrObjs, ih]

/-- Relocation leaves a list of string leaves untouched. -/
theorem ensureObjs_constStr (sv : String) (d : Device) (k : Nat) :
    ensureObjs (constStrObjs sv k) d = constStrObjs sv k := by
  induction k with
  | zero => rfl
  | succ n ih => simp [constStrObjs, ensureObjs, ensure_tensors_on_device, ih]

/-- C1: for every call to `MultiGPUPreprocessorWrapper.execute` — whatever the
wrapped call does, return normally or raise, and even if it tampers with the
hook itself — the device-selection hook `model_management.get_torch_device`
after `execute` finishes equals the hook installed before `execute` was
entered. -/
theorem claim_C1_hook_restored (w : Wrapper) (f : WrappedFn) (kwargs : PyObj)
    (s : ExecState) : ((execute w f kwargs s).2.2).hook = s.hook := by
  cases hf : f s.nextInstanceId
      (ensure_tensors_on_device kwargs (torch_device w.target_device))
      (stateDuring w s) with
  | mk res s4 => cases res <;> simp [execute_eq, hf]

/-- C2: when the wrapped call raises an exception, `execute` propagates that
very exception unchanged (it is neither swallowed nor replaced), and the
original device hook is active when it propagates. -/
theorem claim_C2_error_propagated (w : Wrapper) (f : WrappedFn) (kwargs : PyObj)
    (s : ExecState) (e : Exc) (s4 : ExecState)
    (h : f s.nextInstanceId
        (ensure_tensors_on_device kwargs (torch_device w.target_device))
        (stateDuring w s) = (Except.error e, s4)) :
    (execute w f kwargs s).1 = Except.error e ∧
    ((execute w f kwargs s).2.2).hook = s.hook := by
  rw [execute_eq, h]
  exact ⟨rfl, rfl⟩

/-- Witness for C2 at the concrete wrapped call `raiseSeven`, wrapper `wCuda`,
empty kwargs and state `sInit`. -/
theorem claim_C2_error_propagated_witness :
    (execute wCuda raiseSeven (.dict .nil) sInit).1 = Except.error 7 ∧
    ((execute wCuda raiseSeven (.dict .nil) sInit).2.2).hook = sInit.hook :=
  claim_C2_error_propagated wCuda raiseSeven (.dict .nil) sInit 7
    (stateDuring wCuda sInit) rfl

/-- C3: `_ensure_tensors_on_device` preserves the device-erased skeleton of its
argument — container kinds, key and element order, element counts, non-tensor
leaves and tensor payloads are untouched — while sending each tensor leaf, in
order, to its `.to(device)` image, so every tensor of the result lives on the
target device.  Having no effect beyond building the result is inherent in the
embedding: the function is pure. -/
theorem claim_C3_structure_preserved (o : PyObj) (d : Device) :
    skeleton (ensure_tensors_on_device o d) = skeleton o ∧
    tensorsOf (ensure_tensors_on_device o d) =
      (tensorsOf o).map (fun t => t.toDevice d) ∧
    ∀ t ∈ tensorsOf (ensure_tensors_on_device o d), t.device = d :=
  ⟨skeleton_ensure o d, tensorsOf_ensure o d, tensorsOf_ensure_on_device o d⟩

/-- C4 counterexample: `execute` does not return the wrapped call's value
unchanged.  With a wrapped call that returns a tensor on "cpu" and a wrapper
targeting "cuda:0", the wrapped call's value holds a cpu tensor while
`execute` returns a cuda:0 tensor, and the two differ. -/
theorem claim_C4_counterexample :
    (returnCpuTensor 0 (.dict .nil) (stateDuring wCuda sInit)).1 =
      Except.ok (.tensor ⟨"cpu", 5⟩) ∧
    (execute wCuda returnCpuTensor (.dict .nil) sInit).1 =
      Except.ok (.tensor ⟨"cuda:0", 5⟩) ∧
    (Except.ok (.tensor ⟨"cuda:0", 5⟩) : Except Exc PyObj) ≠
      Except.ok (.tensor ⟨"cpu", 5⟩) :=
  ⟨rfl, rfl, by simp [Tensor.mk.injEq]⟩

/-- C4 amended: on a normal return of the wrapped call, `execute` propagates
the wrapped call's result with every tensor leaf relocated to the target
device and nothing else changed; in particular, when every tensor of the
result already resides on the target device, the result is returned exactly
unchanged. -/
theorem claim_C4_result_relocated (w : Wrapper) (f : WrappedFn) (kwargs : PyObj)
    (s : ExecState) (r : PyObj) (s4 : ExecState)
    (h : f s.nextInstanceId
        (ensure_tensors_on_device kwargs (torch_device w.target_device))
        (stateDuring w s) = (Except.ok r, s4)) :
    (execute w f kwargs s).1 =
      Except.ok (ensure_tensors_on_device r (torch_device w.target_device)) ∧
    ((∀ t ∈ tensorsOf r, t.device = torch_device w.target_device) →
      (execute w f kwargs s).1 = Except.ok r) := by
  rw [execute_eq, h]
  exact ⟨rfl, fun hall => by
    simp [ensure_eq_self_of_on_device r (torch_device w.target_device) hall]⟩

/-- Witness for C4 amended at the concrete wrapped call `returnCpuTensor`. -/
theorem claim_C4_result_relocated_witness :
    (execute wCuda returnCpuTensor (.dict .nil) sInit).1 =
      Except.ok (ensure_tensors_on_device (.tensor ⟨"cpu", 5⟩)
        (torch_device wCuda.target_device)) ∧
    ((∀ t ∈ tensorsOf (.tensor ⟨"cpu", 5⟩),
        t.device = torch_device wCuda.target_device) →
      (execute wCuda returnCpuTensor (.dict .nil) sInit).1 =
        Except.ok (.tensor ⟨"cpu", 5⟩)) :=
  claim_C4_result_relocated wCuda returnCpuTensor (.dict .nil) sInit
    (.tensor ⟨"cpu", 5⟩) (stateDuring wCuda sInit) rfl

/-- C5: while the override is installed — from line 70 until the `finally`
restore — the global state carries the constant hook returning
`torch.device(self.target_device)`, so every call to
`model_management.get_torch_device` in that window answers the fixed target
device, however many times it is called: a probe that reads the hook `k` times
from inside the wrapped call records `k` copies of the target device. -/
theorem claim_C5_constant_override (w : Wrapper) (kwargs : PyObj)
    (s : ExecState) (k : Nat) :
    (∀ n, (stateDuring w s).hook n = torch_device w.target_device) ∧
    (execute w (hookProbe k) kwargs s).1 =
      Except.ok (.list (constStrObjs (torch_device w.target_device) k)) := by
  refine ⟨fun _ => rfl, ?_⟩
  rw [execute_eq]
  simp [hookProbe, stateDuring, devicesList_const, ensure_tensors_on_device,
    ensureObjs_constStr]

/-- C8: `execute` always builds a fresh preprocessor instance: whatever was
cached in `_preprocessor_instance` on entry, the cache holds the freshly drawn
instance id afterwards, the wrapped call is invoked on that fresh instance
(observed by `instProbe`), and exactly one instance id is consumed. -/
theorem claim_C8_fresh_instance (w : Wrapper) (f : WrappedFn) (kwargs : PyObj)
    (s : ExecState) :
    ((execute w f kwargs s).2.1)._preprocessor_instance = some s.nextInstanceId ∧
    (execute w instProbe kwargs s).1 = Except.ok (.other s.nextInstanceId) ∧
    ((execute w instProbe kwargs s).2.2).nextInstanceId = s.nextInstanceId + 1 := by
  refine ⟨?_, ?_, ?_⟩
  · cases hf : f s.nextInstanceId
        (ensure_tensors_on_device kwargs (torch_device w.target_device))
        (stateDuring w s) with
    | mk res s4 => cases res <;> simp [execute_eq, hf]
  · rw [execute_eq]
    simp [instProbe, ensure_tensors_on_device]
  · rw [execute_eq]
    simp [instProbe, stateDuring]

/-- C10: `_ensure_tensors_on_device` is idempotent — relocating an already
relocated structure with the same device changes nothing. -/
theorem claim_C10_idempotent (o : PyObj) (d : Device) :
    ensure_tensors_on_device (ensure_tensors_on_device o d) d =
      ensure_tensors_on_device o d :=
  ensure_idem o d

/-- A wrapper key is registered in `NODE_CLASS_MAPPINGS` exactly when it is
one of the five table keys and its registry lookup succeeds. -/
theorem mem_keys_class_iff (reg : HostRegistry) (k : String) :
    k ∈ (NODE_CLASS_MAPPINGS reg).map Prod.fst ↔
      ∃ p ∈ pluginTable, k = p.1 ∧ (lookupPlugin reg p.2).isSome := by
  rcases h1 : lookupPlugin reg "DepthAnythingV2Preprocessor" with _ | p1 <;>
    rcases h2 : lookupPlugin reg "DWPreprocessor" with _ | p2 <;>
    rcases h3 : lookupPlugin reg "CannyEdgePreprocessor" with _ | p3 <;>
    rcases h4 : lookupPlugin reg "OpenposePreprocessor" with _ | p4 <;>
    rcases h5 : lookupPlugin reg "MiDaS-DepthMapPreprocessor" with _ | p5 <;>
    simp [pluginTable, NODE_CLASS_MAPPINGS, DepthAnythingV2Wrapper,
      DWPreprocessorWrapper, CannyEdgePreprocessorWrapper,
      OpenposePreprocessorWrapper, MidasDepthMapWrapper, h1, h2, h3, h4, h5]

/-- A wrapper key is registered in `NODE_DISPLAY_NAME_MAPPINGS` exactly when
it is one of the five table keys and its registry lookup succeeds. -/
theorem mem_keys_display_iff (reg : HostRegistry) (k : String) :
    k ∈ (NODE_DISPLAY_NAME_MAPPINGS reg).map Prod.fst ↔
      ∃ p ∈ pluginTable, k = p.1 ∧ (lookupPlugin reg p.2).isSome := by
  rcases h1 : lookupPlugin reg "DepthAnythingV2Preprocessor" with _ | p1 <;>
    rcases h2 : lookupPlugin reg "DWPreprocessor" with _ | p2 <;>
    rcases h3 : lookupPlugin reg "CannyEdgePreprocessor" with _ | p3 <;>
    rcases h4 : lookupPlugin reg "OpenposePreprocessor" with _ | p4 <;>
    rcases h5 : lookupPlugin reg "MiDaS-DepthMapPreprocessor" with _ | p5 <;>
    simp [pluginTable, NODE_DISPLAY_NAME_MAPPINGS, DepthAnythingV2Wrapper,
      DWPreprocessorWrapper, CannyEdgePreprocessorWrapper,
      OpenposePreprocessorWrapper, MidasDepthMapWrapper, h1, h2, h3, h4, h5]

/-- C6: if one of the five lookups fails (import error or missing key), that
wrapper's key appears in neither mapping, while every wrapper whose lookup
succeeds is still registered in both.  Module load is modelled as a total
function of the registry, so a failed lookup never raises to the host. -/
theorem claim_C6_unavailable_excluded (reg : HostRegistry) (wk pk : String)
    (hmem : (wk, pk) ∈ pluginTable) (hfail : lookupPlugin reg pk = none) :
    wk ∉ (NODE_CLASS_MAPPINGS reg).map Prod.fst ∧
    wk ∉ (NODE_DISPLAY_NAME_MAPPINGS reg).map Prod.fst ∧
    ∀ wk2 pk2, (wk2, pk2) ∈ pluginTable → (lookupPlugin reg pk2).isSome →
      wk2 ∈ (NODE_CLASS_MAPPINGS reg).map Prod.fst ∧
      wk2 ∈ (NODE_DISPLAY_NAME_MAPPINGS reg).map Prod.fst := by
  refine ⟨?_, ?_, ?_⟩
  · rw [mem_keys_class_iff]
    rintro ⟨p, hp, hpk, hsome⟩
    fin_cases hmem <;> fin_cases hp <;> simp_all [pluginTable]
  · rw [mem_keys_display_iff]
    rintro ⟨p, hp, hpk, hsome⟩
    fin_cases hmem <;> fin_cases hp <;> simp_all [pluginTable]
  · intro wk2 pk2 hmem2 hsome
    exact ⟨(mem_keys_class_iff reg wk2).mpr ⟨(wk2, pk2), hmem2, rfl, hsome⟩,
      (mem_keys_display_iff reg wk2).mpr ⟨(wk2, pk2), hmem2, rfl, hsome⟩⟩

/-- Witness for C6 against the registry `regOne`, where the
`DepthAnythingV2Preprocessor` lookup fails and the `DWPreprocessor` lookup
succeeds. -/
theorem claim_C6_unavailable_excluded_witness :
    "DepthAnythingV2Wrapper" ∉ (NODE_CLASS_MAPPINGS regOne).map Prod.fst ∧
    "DepthAnythingV2Wrapper" ∉ (NODE_DISPLAY_NAME_MAPPINGS regOne).map Prod.fst ∧
    ∀ wk2 pk2, (wk2, pk2) ∈ pluginTable →
      (lookupPlugin regOne pk2).isSome →
      wk2 ∈ (NODE_CLASS_MAPPINGS regOne).map Prod.fst ∧
      wk2 ∈ (NODE_DISPLAY_NAME_MAPPINGS regOne).map Prod.fst :=
  claim_C6_unavailable_excluded regOne "DepthAnythingV2Wrapper"
    "DepthAnythingV2Preprocessor" (by simp [pluginTable]) (by decide)

/-- C7: if exactly two of the five lookups succeed against the host registry,
then exactly two entries appear in `NODE_CLASS_MAPPINGS` and exactly two in
`NODE_DISPLAY_NAME_MAPPINGS`. -/
theorem claim_C7_two_registered (reg : HostRegistry)
    (h : availableCount reg = 2) :
    (NODE_CLASS_MAPPINGS reg).length = 2 ∧
      (NODE_DISPLAY_NAME_MAPPINGS reg).length = 2 := by
  rcases h1 : lookupPlugin reg "DepthAnythingV2Preprocessor" with _ | p1 <;>
    rcases h2 : lookupPlugin reg "DWPreprocessor" with _ | p2 <;>
    rcases h3 : lookupPlugin reg "CannyEdgePreprocessor" with _ | p3 <;>
    rcases h4 : lookupPlugin reg "OpenposePreprocessor" with _ | p4 <;>
    rcases h5 : lookupPlugin reg "MiDaS-DepthMapPreprocessor" with _ | p5 <;>
    simp_all [availableCount, pluginTable, NODE_CLASS_MAPPINGS,
      NODE_DISPLAY_NAME_MAPPINGS, DepthAnythingV2Wrapper, DWPreprocessorWrapper,
      CannyEdgePreprocessorWrapper, OpenposePreprocessorWrapper,
      MidasDepthMapWrapper]

/-- Witness for C7 against the registry `regTwo`, where exactly the
`DWPreprocessor` and `CannyEdgePreprocessor` lookups succeed. -/
theorem claim_C7_two_registered_witness :
    (NODE_CLASS_MAPPINGS regTwo).length = 2 ∧
      (NODE_DISPLAY_NAME_MAPPINGS regTwo).length = 2 :=
  claim_C7_two_registered regTwo (by decide)

/-- C9: after module-load registration, `NODE_CLASS_MAPPINGS` and
`NODE_DISPLAY_NAME_MAPPINGS` carry exactly the same keys, in the same
order: a wrapper identifier is in one mapping exactly when it is in the
other. -/
theorem claim_C9_keys_agree (reg : HostRegistry) :
    (NODE_CLASS_MAPPINGS reg).map Prod.fst =
      (NODE_DISPLAY_NAME_MAPPINGS reg).map Prod.fst := by
  unfold NODE_CLASS_MAPPINGS NODE_DISPLAY_NAME_MAPPINGS
  cases DepthAnythingV2Wrapper reg <;> cases DWPreprocessorWrapper reg <;>
    cases CannyEdgePreprocessorWrapper reg <;>
    cases OpenposePreprocessorWrapper reg <;>
    cases MidasDepthMapWrapper reg <;> simp

end GPUWrapper
